import Mathlib

/-!
Verification of the ensemble credibility scorer of the ai-news-analyzer
repository: a shallow embedding in Lean 4 of the pure computational core
found in `src/features/paste_news.py` (`_predict_proba_ensemble`,
`_assess_content_quality`, the verdict banding and confidence display of
`run_paste_news_feature`), `src/utils/helpers.py` (`is_opinion_piece`) and
`src/utils/models.py` (`predict_proba_content_only`).

Python floats are embedded as exact rationals (`ℚ`); the decimal literals
of the source (0.7, 0.3, …) are written as the equal fractions (7/10, …).
Strings are embedded as `List Char` obtained from Lean `String`s; the two
external ML classifiers (the TF-IDF model and the zero-shot pipeline) are
opaque probability sources, so their outputs enter the embedding as
rational parameters, exactly as the spec treats them (black boxes whose
failure case is the caller substituting 0.5).
-/

namespace NewsAnalyzer

/-! ### Ensemble combiner (`_predict_proba_ensemble`, steps 4–5) -/

/-- The pure combining step of `_predict_proba_ensemble`
(src/features/paste_news.py lines 49–59): agreement-based blending of the
base TF-IDF probability, the zero-shot probability and the content-quality
score, followed by the quality adjustment `(ensemble + quality)/2` and the
clamp `min(0.99, max(0.01, ·))`. -/
def ensemble_combine (base_proba zs_proba quality_score : ℚ) : ℚ :=
  let model_agreement := |base_proba - zs_proba|
  let ensemble_proba :=
    if model_agreement < 1/5 then
      7/10 * base_proba + 3/10 * zs_proba
    else
      2/5 * base_proba + 3/10 * zs_proba + 3/10 * quality_score
  let final_proba := (ensemble_proba + quality_score) / 2
  min (99/100) (max (1/100) final_proba)

/-! ### Verdict banding and confidence display (`run_paste_news_feature`) -/

/-- The verdict/certainty banding of `run_paste_news_feature`
(src/features/paste_news.py lines 226–245): the if/elif chain on the final
probability with thresholds 0.7, 0.55, 0.45, 0.3. -/
def verdict_band (proba : ℚ) : String × String :=
  if proba ≥ 7/10 then ("Likely Real", "High")
  else if proba ≥ 11/20 then ("Possibly Real", "Medium")
  else if proba ≥ 9/20 then ("Uncertain", "Low")
  else if proba ≥ 3/10 then ("Possibly Fake", "Medium")
  else ("Likely Fake", "High")

/-- Display confidence (src/features/paste_news.py lines 248–251):
`proba` when `proba > 0.5`, else `1 - proba`. -/
def display_confidence (proba : ℚ) : ℚ :=
  if proba > 1/2 then proba else 1 - proba

/-- The integer confidence percentage
(src/features/paste_news.py line 253): Python `int(display_confidence * 100)`
truncates toward zero, which on the nonnegative values arising here is the
floor. -/
def confidence_percentage (proba : ℚ) : ℤ :=
  ⌊display_confidence proba * 100⌋

/-- Modelled from the spec: round-half-up of a rational to an integer
(`⌊x + 1/2⌋`), the rounding rule the spec prescribes for the confidence
percentage; defined only to be compared with `confidence_percentage`. -/
def round_half_up (x : ℚ) : ℤ :=
  ⌊x + 1/2⌋

/-! ### String helpers

Embeddings of the Python string operations used by the scorer, written
over `List Char` (a Lean `String` is converted once with `.toList`).
`Char.isWhitespace` stands for Python's whitespace class: the inputs of
interest are ASCII, where the two classes agree. -/

/-- Python `str.lower()` (ASCII case folding, as `Char.toLower` performs). -/
def lowerL (s : List Char) : List Char :=
  s.map Char.toLower

/-- Python `needle in hay`: contiguous-substring containment, checked by
trying `isPrefixOf` at every suffix of the haystack. -/
def isSub (needle : List Char) : List Char → Bool
  | [] => needle.isEmpty
  | c :: cs => needle.isPrefixOf (c :: cs) || isSub needle cs

/-- Python `str.strip()`: remove leading and trailing whitespace. -/
def stripL (s : List Char) : List Char :=
  ((s.dropWhile Char.isWhitespace).reverse.dropWhile Char.isWhitespace).reverse

/-- Helper for `splitWs`: accumulate the current word (reversed) while
scanning; words are maximal runs of non-whitespace. -/
def splitWsAux (cur : List Char) : List Char → List (List Char)
  | [] => if cur = [] then [] else [cur.reverse]
  | c :: cs =>
    if c.isWhitespace then
      if cur = [] then splitWsAux [] cs
      else cur.reverse :: splitWsAux [] cs
    else
      splitWsAux (c :: cur) cs

/-- Python `str.split()` with no argument: split on whitespace runs,
discarding empty fields. -/
def splitWs (s : List Char) : List (List Char) :=
  splitWsAux [] s

/-- Helper for `countRuns`: the flag records whether the previous character
belonged to a run. -/
def countRunsAux (p : Char → Bool) (inRun : Bool) : List Char → Nat
  | [] => 0
  | c :: cs =>
    if p c then
      (if inRun then 0 else 1) + countRunsAux p true cs
    else
      countRunsAux p false cs

/-- Number of maximal runs of characters satisfying `p`; this is
`len(re.findall(r'[.!?]+', text))` when `p` accepts exactly `.`, `!`, `?`. -/
def countRuns (p : Char → Bool) (s : List Char) : Nat :=
  countRunsAux p false s

/-! ### Content quality heuristic (`_assess_content_quality`) -/

/-- The fixed attribution-phrase list of sub-indicator 3
(src/features/paste_news.py lines 93–94). -/
def source_indicators : List String :=
  ["according to", "sources say", "reported by", "study shows",
   "research indicates", "officials said", "spokesperson"]

/-- The fixed red-flag phrase list of sub-indicator 6
(src/features/paste_news.py lines 121–122). -/
def red_flags : List String :=
  ["shocking truth", "doctors hate", "secret revealed", "they don't want you",
   "mainstream media won't", "wake up", "sheeple", "big pharma conspiracy"]

/-- The fixed emotional-word list of sub-indicator 7
(src/features/paste_news.py lines 129–130). -/
def emotional_words : List String :=
  ["unbelievable", "shocking", "amazing", "incredible", "outrageous",
   "devastating", "terrifying", "miraculous"]

/-- The specificity scoring chain (sub-indicator 5,
src/features/paste_news.py lines 111–118), as a function of the three
feature flags `has_dates`, `has_numbers`, `has_proper_nouns` that the
source computes with `re.search`/`re.findall` on its three patterns
(lines 107–109).  Note the 0.7 branch covers only the two-feature
combinations that include dates. -/
def specificity_score (has_dates has_numbers has_proper_nouns : Bool) : ℚ :=
  if has_dates && has_numbers && has_proper_nouns then 9/10
  else if (has_dates && has_numbers) || (has_dates && has_proper_nouns) then 7/10
  else if has_dates || has_numbers || has_proper_nouns then 3/5
  else 3/10

/-- `word_count = len(text.split())` (src/features/paste_news.py line 73). -/
def word_count (text : List Char) : Nat :=
  (splitWs text).length

/-- `sentence_count = len(re.findall(r'[.!?]+', text))`
(src/features/paste_news.py line 74). -/
def sentence_count (text : List Char) : Nat :=
  countRuns (fun c => c = '.' || c = '!' || c = '?') text

/-- Sub-indicator 1, appropriate length
(src/features/paste_news.py lines 77–82). -/
def length_score (text : List Char) : ℚ :=
  if 50 ≤ word_count text ∧ word_count text ≤ 2000 then 4/5
  else if (20 ≤ word_count text ∧ word_count text < 50) ∨
          (2000 < word_count text ∧ word_count text ≤ 3000) then 3/5
  else 3/10

/-- Sub-indicator 2, sentence structure
(src/features/paste_news.py lines 85–90): appended to the indicator list
only when at least one sentence was detected, hence a zero-or-one-element
list. -/
def structure_score (text : List Char) : List ℚ :=
  if sentence_count text ≠ 0 then
    let avg_sentence_length : ℚ := (word_count text : ℚ) / (sentence_count text : ℚ)
    [if 10 ≤ avg_sentence_length ∧ avg_sentence_length ≤ 30 then 4/5 else 1/2]
  else []

/-- Sub-indicator 3, attribution and sources
(src/features/paste_news.py lines 93–98). -/
def attribution_score (text : List Char) : ℚ :=
  if source_indicators.any (fun w => isSub w.toList (lowerL text)) then 9/10 else 2/5

/-- Sub-indicator 4, direct quotes
(src/features/paste_news.py lines 101–104); checked on the original text,
not the lowercased copy. -/
def quotes_score (text : List Char) : ℚ :=
  if text.contains '"' || text.contains '\'' then 4/5 else 1/2

/-- Sub-indicator 6, red flags for fake news
(src/features/paste_news.py lines 121–126). -/
def redflag_score (text : List Char) : ℚ :=
  if red_flags.any (fun w => isSub w.toList (lowerL text)) then 1/10 else 7/10

/-- Sub-indicator 7, emotional manipulation
(src/features/paste_news.py lines 129–137): the count is the number of
listed words occurring in the text, each counted at most once. -/
def emotional_score (text : List Char) : ℚ :=
  let emotional_count :=
    (emotional_words.filter (fun w => isSub w.toList (lowerL text))).length
  if emotional_count = 0 then 4/5
  else if emotional_count ≤ 2 then 3/5
  else 1/5

/-- The list `quality_indicators` built by `_assess_content_quality`
(src/features/paste_news.py lines 69–137), in source order.  The three
regex feature flags of sub-indicator 5 are parameters (the regex engine is
external to this embedding); everything else is computed from the text.
Sub-indicator 2 is appended only when `sentence_count > 0`, exactly as in
the source. -/
def quality_indicators (text : List Char) (has_dates has_numbers has_proper_nouns : Bool) :
    List ℚ :=
  [length_score text] ++ structure_score text ++
    [attribution_score text, quotes_score text,
     specificity_score has_dates has_numbers has_proper_nouns,
     redflag_score text, emotional_score text]

/-- `_assess_content_quality` (src/features/paste_news.py lines 62–140):
the unweighted mean of the quality indicators. -/
def assess_content_quality (text : List Char) (has_dates has_numbers has_proper_nouns : Bool) :
    ℚ :=
  let qi := quality_indicators text has_dates has_numbers has_proper_nouns
  qi.sum / (qi.length : ℚ)

/-! ### Full ensemble scorer (`_predict_proba_ensemble`) -/

/-- `_predict_proba_ensemble` (src/features/paste_news.py lines 13–59) with
the two classifier outputs abstracted as rational parameters `base_proba`
and `zs_proba` (the source substitutes 0.5 for either on failure before
this logic runs) and the specificity regex flags as booleans: short or
empty input short-circuits to the neutral 0.5, otherwise the quality score
is computed and the three signals are combined. -/
def predict_proba_ensemble (text : List Char) (base_proba zs_proba : ℚ)
    (has_dates has_numbers has_proper_nouns : Bool) : ℚ :=
  if text = [] ∨ (stripL text).length < 10 then 1/2
  else
    ensemble_combine base_proba zs_proba
      (assess_content_quality text has_dates has_numbers has_proper_nouns)

/-! ### Opinion gate (`is_opinion_piece`) -/

/-- The fixed marker set of the opinion gate
(src/utils/helpers.py lines 59–62). -/
def opinion_markers : List String :=
  ["opinion", "op-ed", "oped", "editorial", "analysis", "commentary", "columns"]

/-- The fixed first-person-subjective-phrase list
(src/utils/helpers.py lines 65–69). -/
def subjective_phrases : List String :=
  ["i think", "i believe", "in my view", "we should", "i feel",
   "my opinion", "i argue", "i suggest", "in our view", "personally",
   "from my perspective"]

/-- The strings actually matched by the gate's regex.  The source builds
the pattern from the RAW string `r"\\b(" + "|".join(re.escape(m)...) + r")\\b"`
(src/utils/helpers.py line 72): in a raw string `\\b` denotes a literal
backslash followed by `b`, so the compiled regex is an alternation of the
LITERAL strings `\bopinion\b`, `\bop\-ed\b`, … (with `re.escape` inserting
a backslash before the hyphen of `op-ed`); it does not use word
boundaries.  `re.search` of that pattern is therefore substring search for
one of these literals. -/
def literal_marker_patterns : List String :=
  ["\\bopinion\\b", "\\bop\\-ed\\b", "\\boped\\b", "\\beditorial\\b",
   "\\banalysis\\b", "\\bcommentary\\b", "\\bcolumns\\b"]

/-- First 40 whitespace-separated words joined by single spaces:
`" ".join(text_l.split()[:40])` (src/utils/helpers.py line 71). -/
def first40 (s : List Char) : List Char :=
  (List.intercalate [' '] ((splitWs s).take 40))

/-- `is_opinion_piece` (src/utils/helpers.py lines 52–75): URL check for a
`/marker/` substring, then the (broken, see `literal_marker_patterns`)
regex search over the first 40 words, then the subjective-phrase count. -/
def is_opinion_piece (text url : List Char) : Bool :=
  let text_l := lowerL text
  let url_l := lowerL url
  if opinion_markers.any (fun m => isSub ('/' :: m.toList ++ ['/']) url_l) then
    true
  else
    let subjective_hits := (subjective_phrases.filter (fun s => isSub s.toList text_l)).length
    let first_40 := first40 text_l
    if literal_marker_patterns.any (fun p => isSub p.toList first_40) then
      true
    else
      decide (subjective_hits ≥ 2)

/-- Modelled from the spec: the condition the spec states for the second
branch of the opinion gate — a marker term occurring in the text as a
whole word, i.e. an occurrence not adjacent to word characters
(letters, digits, underscore), which is what the regex `\b(...)\b` that
the source apparently intended would test. -/
def wordChar (c : Char) : Bool :=
  c.isAlpha || c.isDigit || c = '_'

/-- Modelled from the spec: whether the boundary before a candidate
occurrence is acceptable (start of string or a non-word character). -/
def boundaryBefore (prev : Option Char) : Bool :=
  match prev with
  | none => true
  | some c => !(wordChar c)

/-- Modelled from the spec: whether the boundary after a candidate
occurrence is acceptable (end of string or a non-word character). -/
def boundaryAfter (rest : List Char) : Bool :=
  match rest with
  | [] => true
  | c :: _ => !(wordChar c)

/-- Modelled from the spec: scan for an occurrence of `w` with word
boundaries on both sides; `prev` is the character preceding the current
position. -/
def hasWholeWordAux (w : List Char) (prev : Option Char) : List Char → Bool
  | [] => false
  | c :: cs =>
    (boundaryBefore prev && w.isPrefixOf (c :: cs) && boundaryAfter ((c :: cs).drop w.length))
    || hasWholeWordAux w (some c) cs

/-- Modelled from the spec: `w` occurs in `s` as a whole word. -/
def hasWholeWord (w : List Char) (s : List Char) : Bool :=
  hasWholeWordAux w none s

/-! ### Content-only scorer (`predict_proba_content_only`) -/

/-- `predict_proba_content_only` (src/utils/models.py lines 164–186) with
the two classifier calls abstracted: `base_proba` is the TF-IDF model's
output, and `zs` is the zero-shot score for "real news" (`none` models the
failure/absent-label path, where the code substitutes `pz = 0.5`). The
combination is `0.6·base + 0.4·pz` clamped to `[0.005, 0.995]`. -/
def predict_proba_content_only (base_proba : ℚ) (zs : Option ℚ) : ℚ :=
  let pz := zs.getD (1/2)
  let p := 3/5 * base_proba + 2/5 * pz
  min (199/200) (max (1/200) p)

/-! ### Theorems -/

/-- C1: for all `base_proba`, `zs_proba`, `quality_score` in `[0,1]`, the
ensemble combiner computes agreement `|p1 - p2|`, blends with weights
`0.7/0.3` when agreement `< 0.2` and `0.4/0.3/0.3` otherwise, averages the
result with the quality score, clamps to `[0.01, 0.99]`, and hence its
output always lies in `[0.01, 0.99]`. -/
theorem ensemble_combine_range (p1 p2 q : ℚ)
    (hp1 : 0 ≤ p1) (hp1' : p1 ≤ 1) (hp2 : 0 ≤ p2) (hp2' : p2 ≤ 1)
    (hq : 0 ≤ q) (hq' : q ≤ 1) :
    ensemble_combine p1 p2 q =
      min (99/100) (max (1/100)
        (((if |p1 - p2| < 1/5 then 7/10 * p1 + 3/10 * p2
           else 2/5 * p1 + 3/10 * p2 + 3/10 * q) + q) / 2)) ∧
    1/100 ≤ ensemble_combine p1 p2 q ∧
    ensemble_combine p1 p2 q ≤ 99/100 := by
  refine ⟨rfl, ?_, ?_⟩
  · simp only [ensemble_combine]
    exact le_min (by norm_num) (le_max_left _ _)
  · simp only [ensemble_combine]
    exact min_le_left _ _

/-- Witness for C1 at `p1 = p2 = q = 1/2`. -/
theorem ensemble_combine_range_witness :
    ensemble_combine (1/2) (1/2) (1/2) =
      min (99/100) (max (1/100)
        (((if |(1/2 : ℚ) - 1/2| < 1/5 then 7/10 * (1/2) + 3/10 * (1/2)
           else 2/5 * (1/2) + 3/10 * (1/2) + 3/10 * (1/2)) + 1/2) / 2)) ∧
    1/100 ≤ ensemble_combine (1/2) (1/2) (1/2) ∧
    ensemble_combine (1/2) (1/2) (1/2) ≤ 99/100 :=
  ensemble_combine_range (1/2) (1/2) (1/2) (by norm_num) (by norm_num)
    (by norm_num) (by norm_num) (by norm_num) (by norm_num)

/-- C2: verdict banding assigns exactly one (verdict, certainty) pair to
every probability in `[0,1]`, with the fixed thresholds 0.70, 0.55, 0.45,
0.30 delimiting the five bands. -/
theorem verdict_band_partition (p : ℚ) (h0 : 0 ≤ p) (h1 : p ≤ 1) :
    (7/10 ≤ p → verdict_band p = ("Likely Real", "High")) ∧
    (11/20 ≤ p ∧ p < 7/10 → verdict_band p = ("Possibly Real", "Medium")) ∧
    (9/20 ≤ p ∧ p < 11/20 → verdict_band p = ("Uncertain", "Low")) ∧
    (3/10 ≤ p ∧ p < 9/20 → verdict_band p = ("Possibly Fake", "Medium")) ∧
    (p < 3/10 → verdict_band p = ("Likely Fake", "High")) := by
  simp only [verdict_band]
  refine ⟨fun h => ?_, fun h => ?_, fun h => ?_, fun h => ?_, fun h => ?_⟩ <;>
    split_ifs with a b c d <;>
    first
      | rfl
      | (exfalso
         try simp only [ge_iff_le, not_le] at *
         try obtain ⟨h1, h2⟩ := h
         linarith)

/-- Witness for C2 at `p = 1/2` (the Uncertain band). -/
theorem verdict_band_partition_witness :
    verdict_band (1/2) = ("Uncertain", "Low") :=
  (verdict_band_partition (1/2) (by norm_num) (by norm_num)).2.2.1
    ⟨by norm_num, by norm_num⟩

/-- C3 counterexample: the combiner is not monotone in its first
argument.  With `p2 = 0` and `q = 0`, increasing `p1` from `0.19` to
`0.2` crosses the agreement threshold and the output drops from
`0.0665` to `0.04`; all inputs are in `[0,1]`. -/
theorem ensemble_combine_not_monotone_cex :
    (19/100 : ℚ) ≤ 1/5 ∧ (0 : ℚ) ≤ 19/100 ∧ (1/5 : ℚ) ≤ 1 ∧
    ensemble_combine (1/5) 0 0 < ensemble_combine (19/100) 0 0 := by
  refine ⟨by norm_num, by norm_num, by norm_num, ?_⟩
  norm_num [ensemble_combine, abs]

/-- C3 amended: holding `p2` and `q` in `[0,1]` fixed, the combiner is
monotone in `p1` on each side of the agreement threshold: if `p1 ≤ p1'`
and both inputs fall in the same branch (`|p1 - p2| < 0.2` iff
`|p1' - p2| < 0.2`), the output never decreases. -/
theorem ensemble_combine_monotone_same_branch (p1 p1' p2 q : ℚ)
    (hp1 : 0 ≤ p1) (hp1' : p1' ≤ 1) (hp2 : 0 ≤ p2) (hp2' : p2 ≤ 1)
    (hq : 0 ≤ q) (hq' : q ≤ 1) (hle : p1 ≤ p1')
    (hbr : |p1 - p2| < 1/5 ↔ |p1' - p2| < 1/5) :
    ensemble_combine p1 p2 q ≤ ensemble_combine p1' p2 q := by
  simp only [ensemble_combine]
  refine min_le_min le_rfl (max_le_max le_rfl ?_)
  by_cases hc : |p1 - p2| < 1/5
  · rw [if_pos hc, if_pos (hbr.mp hc)]
    linarith
  · rw [if_neg hc, if_neg (fun h => hc (hbr.mpr h))]
    linarith

/-- Witness for C3 amended at `p1 = 0.1 ≤ p1' = 0.15`, `p2 = 0`, `q = 0`
(both in the agreement branch). -/
theorem ensemble_combine_monotone_same_branch_witness :
    ensemble_combine (1/10) 0 0 ≤ ensemble_combine (3/20) 0 0 :=
  ensemble_combine_monotone_same_branch (1/10) (3/20) 0 0
    (by norm_num) (by norm_num) (by norm_num) (by norm_num)
    (by norm_num) (by norm_num) (by norm_num) (by norm_num [abs])

/-- C4 counterexample: at `p1 = p2 = 0`, `q = 0` the claimed exact value
`(p1 + q)/2 = 0` is below the clamp floor, and the combiner returns
`0.01` instead. -/
theorem ensemble_combine_equal_signals_cex :
    ¬ (ensemble_combine 0 0 0 = (0 + 0) / 2) := by
  norm_num [ensemble_combine]

/-- C4 amended: when both model signals are equal the agreement is `0`,
the blend collapses to `p1`, and the combiner output equals `(p1 + q)/2`
clamped to `[0.01, 0.99]` (so it equals `(p1 + q)/2` exactly whenever
that value already lies in `[0.01, 0.99]`). -/
theorem ensemble_combine_equal_signals (p1 q : ℚ) :
    ensemble_combine p1 p1 q = min (99/100) (max (1/100) ((p1 + q) / 2)) := by
  simp only [ensemble_combine, sub_self, abs_zero]
  norm_num
  ring_nf

/-- Number of specificity features detected, used to phrase the
specificity scoring table by feature count. -/
def num_features (has_dates has_numbers has_proper_nouns : Bool) : Nat :=
  (cond has_dates 1 0) + (cond has_numbers 1 0) + (cond has_proper_nouns 1 0)

/-- C5 counterexample: with the numeric and proper-noun features present
but no date, exactly two features are detected, yet the code scores this
`0.6`, not the claimed `0.7` (the `0.7` branch requires the date feature). -/
theorem specificity_score_two_without_dates_cex :
    num_features false true true = 2 ∧
    specificity_score false true true = 3/5 ∧
    specificity_score false true true ≠ 7/10 := by
  refine ⟨rfl, ?_, ?_⟩ <;> norm_num [specificity_score]

/-- C5 amended: the specificity sub-indicator scores `0.9` when all three
features are present; `0.7` when exactly two are present and the date
feature is among them; `0.6` when exactly one is present, or when exactly
the numeric and proper-noun features are present without a date; and
`0.3` when none are present. -/
theorem specificity_score_table (hd hn hp : Bool) :
    (num_features hd hn hp = 3 → specificity_score hd hn hp = 9/10) ∧
    (num_features hd hn hp = 2 ∧ hd = true → specificity_score hd hn hp = 7/10) ∧
    (num_features hd hn hp = 2 ∧ hd = false → specificity_score hd hn hp = 3/5) ∧
    (num_features hd hn hp = 1 → specificity_score hd hn hp = 3/5) ∧
    (num_features hd hn hp = 0 → specificity_score hd hn hp = 3/10) := by
  cases hd <;> cases hn <;> cases hp <;>
    refine ⟨fun h => ?_, fun h => ?_, fun h => ?_, fun h => ?_, fun h => ?_⟩ <;>
    simp_all [num_features, specificity_score]

/-- Witness for C5 amended: dates and proper nouns present without
numbers (two features, date among them) scores `0.7`. -/
theorem specificity_score_table_witness :
    specificity_score true false true = 7/10 :=
  (specificity_score_table true false true).2.1 ⟨rfl, rfl⟩

/-- C6: the first-40-words branch of the opinion gate is broken.  The
text "opinion on the budget" contains the marker "opinion" as a whole
word among its first 40 words (the spec's condition, `hasWholeWord`), and
none of the other two conditions applies, so the claim classifies it as
opinion; but the code's pattern — built from the raw string
`r"\\b(...)\\b"` — only matches a literal backslash-`b`, so
`is_opinion_piece` returns `false`. -/
theorem opinion_gate_wholeword_divergence :
    hasWholeWord "opinion".toList (first40 (lowerL "opinion on the budget".toList)) = true ∧
    is_opinion_piece "opinion on the budget".toList [] = false := by
  constructor <;> decide

/-- C7 counterexample: at final probability `p = 0.625 ∈ [0.01, 0.99]`
the display confidence is `0.625`, `100·0.625 = 62.5`, the code's
truncation reports `62`, while round-half-up would report `63`. -/
theorem confidence_percentage_not_round_half_up :
    (1/100 : ℚ) ≤ 5/8 ∧ (5/8 : ℚ) ≤ 99/100 ∧
    confidence_percentage (5/8) = 62 ∧
    round_half_up (display_confidence (5/8) * 100) = 63 ∧
    confidence_percentage (5/8) ≠ round_half_up (display_confidence (5/8) * 100) := by
  refine ⟨by norm_num, by norm_num, ?_, ?_, ?_⟩ <;>
    norm_num [confidence_percentage, display_confidence, round_half_up]

/-- C7 amended: for every final probability `p ∈ [0.01, 0.99]` the
displayed confidence is `p` when `p > 0.5` and `1 - p` otherwise,
reported as the integer percentage obtained by truncating (flooring)
`100` times that value; the reported percentage lies in `[50, 99]`. -/
theorem confidence_percentage_floor_bounds (p : ℚ)
    (h0 : 1/100 ≤ p) (h1 : p ≤ 99/100) :
    confidence_percentage p = ⌊(if 1/2 < p then p else 1 - p) * 100⌋ ∧
    50 ≤ confidence_percentage p ∧ confidence_percentage p ≤ 99 := by
  have hd0 : 1/2 ≤ display_confidence p := by
    simp only [display_confidence]
    split_ifs with h <;> linarith
  have hd1 : display_confidence p ≤ 99/100 := by
    simp only [display_confidence]
    split_ifs with h <;> linarith
  refine ⟨rfl, ?_, ?_⟩
  · rw [confidence_percentage, Int.le_floor]
    push_cast
    linarith
  · have hlt : confidence_percentage p < 100 := by
      rw [confidence_percentage]
      exact Int.floor_lt.mpr (by push_cast; linarith)
    omega

/-- Witness for C7 amended at `p = 3/4`. -/
theorem confidence_percentage_floor_bounds_witness :
    confidence_percentage (3/4) = ⌊(if (1/2 : ℚ) < 3/4 then (3/4 : ℚ) else 1 - 3/4) * 100⌋ ∧
    50 ≤ confidence_percentage (3/4) ∧ confidence_percentage (3/4) ≤ 99 :=
  confidence_percentage_floor_bounds (3/4) (by norm_num) (by norm_num)

/-- C8: for every input text whose stripped length is below 10, the
ensemble scorer returns the neutral `0.5` regardless of the classifier
outputs and the specificity flags (so neither classifier nor the quality
heuristic influences the result), and the verdict banding maps `0.5` to
"Uncertain". -/
theorem predict_proba_ensemble_short_input (text : List Char)
    (base_proba zs_proba : ℚ) (hd hn hp : Bool)
    (h : (stripL text).length < 10) :
    predict_proba_ensemble text base_proba zs_proba hd hn hp = 1/2 ∧
    verdict_band (1/2) = ("Uncertain", "Low") := by
  refine ⟨?_, by norm_num [verdict_band]⟩
  simp only [predict_proba_ensemble]
  rw [if_pos (Or.inr h)]

/-- Witness for C8 at the five-character text "short" with extreme
classifier outputs. -/
theorem predict_proba_ensemble_short_input_witness :
    predict_proba_ensemble "short".toList 1 0 true true true = 1/2 ∧
    verdict_band (1/2) = ("Uncertain", "Low") :=
  predict_proba_ensemble_short_input "short".toList 1 0 true true true (by decide)

/-- Helper: the specificity score is always in `[0,1]`. -/
lemma specificity_score_unit (hd hn hp : Bool) :
    0 ≤ specificity_score hd hn hp ∧ specificity_score hd hn hp ≤ 1 := by
  simp only [specificity_score]
  split_ifs <;> norm_num

/-- Helper: the length sub-indicator is in `[0,1]`. -/
lemma length_score_unit (text : List Char) :
    0 ≤ length_score text ∧ length_score text ≤ 1 := by
  simp only [length_score]
  split_ifs <;> norm_num

/-- Helper: every element of the sentence-structure sub-indicator list is
in `[0,1]`. -/
lemma structure_score_unit (text : List Char) :
    ∀ x ∈ structure_score text, 0 ≤ x ∧ x ≤ 1 := by
  intro x hx
  simp only [structure_score] at hx
  split_ifs at hx
  · obtain rfl := List.mem_singleton.mp hx
    norm_num
  · obtain rfl := List.mem_singleton.mp hx
    norm_num
  · exact absurd hx (List.not_mem_nil x)

/-- Helper: the attribution sub-indicator is in `[0,1]`. -/
lemma attribution_score_unit (text : List Char) :
    0 ≤ attribution_score text ∧ attribution_score text ≤ 1 := by
  simp only [attribution_score]; split_ifs <;> norm_num

/-- Helper: the quotation sub-indicator is in `[0,1]`. -/
lemma quotes_score_unit (text : List Char) :
    0 ≤ quotes_score text ∧ quotes_score text ≤ 1 := by
  simp only [quotes_score]; split_ifs <;> norm_num

/-- Helper: the red-flag sub-indicator is in `[0,1]`. -/
lemma redflag_score_unit (text : List Char) :
    0 ≤ redflag_score text ∧ redflag_score text ≤ 1 := by
  simp only [redflag_score]; split_ifs <;> norm_num

/-- Helper: the emotional-language sub-indicator is in `[0,1]`. -/
lemma emotional_score_unit (text : List Char) :
    0 ≤ emotional_score text ∧ emotional_score text ≤ 1 := by
  simp only [emotional_score]; split_ifs <;> norm_num

/-- Helper: every quality indicator lies in `[0,1]`. -/
lemma quality_indicators_mem_unit (text : List Char) (hd hn hp : Bool) :
    ∀ x ∈ quality_indicators text hd hn hp, 0 ≤ x ∧ x ≤ 1 := by
  intro x hx
  simp only [quality_indicators] at hx
  rcases List.mem_append.mp hx with h12 | h37
  · rcases List.mem_append.mp h12 with h1 | h2
    · obtain rfl := List.mem_singleton.mp h1
      exact length_score_unit text
    · exact structure_score_unit text x h2
  · simp only [List.mem_cons, List.not_mem_nil, or_false] at h37
    rcases h37 with rfl | rfl | rfl | rfl | rfl
    · exact attribution_score_unit text
    · exact quotes_score_unit text
    · exact specificity_score_unit hd hn hp
    · exact redflag_score_unit text
    · exact emotional_score_unit text

/-- Helper: the indicator list is never empty (it has six or seven
elements), so the mean's divisor is never zero. -/
lemma quality_indicators_length_pos (text : List Char) (hd hn hp : Bool) :
    0 < (quality_indicators text hd hn hp).length := by
  simp only [quality_indicators, List.length_append, List.length_cons,
    List.length_nil]
  omega

/-- C9: the content quality heuristic is total — for every input (and
every valuation of the specificity regex flags) the indicator list is
nonempty, so the mean's divisor is nonzero and the result is a rational
in `[0,1]`; on the empty string it returns the minimum-information
default `0.5`. -/
theorem assess_content_quality_total :
    (∀ (text : List Char) (hd hn hp : Bool),
        (quality_indicators text hd hn hp).length ≠ 0 ∧
        0 ≤ assess_content_quality text hd hn hp ∧
        assess_content_quality text hd hn hp ≤ 1) ∧
    assess_content_quality [] false false false = 1/2 := by
  constructor
  · intro text hd hn hp
    have hmem := quality_indicators_mem_unit text hd hn hp
    have hpos := quality_indicators_length_pos text hd hn hp
    have hposq : (0 : ℚ) < ((quality_indicators text hd hn hp).length : ℚ) := by
      exact_mod_cast hpos
    have hs0 : 0 ≤ (quality_indicators text hd hn hp).sum :=
      List.sum_nonneg (fun x hx => (hmem x hx).1)
    have hs1 : (quality_indicators text hd hn hp).sum ≤
        ((quality_indicators text hd hn hp).length : ℚ) := by
      have := List.sum_le_card_nsmul (quality_indicators text hd hn hp) 1
        (fun x hx => (hmem x hx).2)
      simpa [nsmul_eq_mul] using this
    refine ⟨Nat.pos_iff_ne_zero.mp hpos, ?_, ?_⟩
    · simp only [assess_content_quality]
      exact div_nonneg hs0 (le_of_lt hposq)
    · simp only [assess_content_quality]
      rw [div_le_one hposq]
      exact hs1
  · norm_num [assess_content_quality, quality_indicators, specificity_score,
      length_score, structure_score, attribution_score, quotes_score,
      redflag_score, emotional_score, word_count, sentence_count,
      countRuns, countRunsAux, splitWs, splitWsAux, lowerL, isSub,
      source_indicators, red_flags, emotional_words]

/-- C10: the alternative public scorer combines the lexical probability
and the zero-shot probability with weights `0.6` and `0.4`, substitutes
`0.5` when the zero-shot signal is absent, clamps to `[0.005, 0.995]`,
and at `base = 0`, `zeroshot = 0` (both legal classifier outputs in
`[0,1]`) produces `0.005`, which is outside the `[0.01, 0.99]` range
guaranteed for the primary ensemble scorer. -/
theorem predict_proba_content_only_props :
    (∀ (base_proba : ℚ) (zs : Option ℚ),
        predict_proba_content_only base_proba zs =
          min (199/200) (max (1/200) (3/5 * base_proba + 2/5 * zs.getD (1/2)))) ∧
    (∀ base_proba : ℚ,
        predict_proba_content_only base_proba none =
          predict_proba_content_only base_proba (some (1/2))) ∧
    predict_proba_content_only 0 (some 0) = 1/200 ∧
    predict_proba_content_only 0 (some 0) < 1/100 := by
  refine ⟨fun b zs => rfl, fun b => rfl, ?_, ?_⟩ <;>
    norm_num [predict_proba_content_only]

end NewsAnalyzer
